import Mathlib

/-!
Shallow embedding of the session state machine of the youtube-reviewer
frontend (`src/frontend/src/App.tsx`): the data model, the WebSocket
message handlers of the phased workflow, the phase-start operations, and
the quiz operations, together with theorems checking the natural-language
specification against this embedding.

JavaScript numbers that can become NaN or infinite (the quiz score) are
modelled by `JSNum`; all other numeric fields are naturals or rationals.
A JS `Map<number, number>` is modelled as an association list with
`mapGet` / `mapSet`.  The `new WebSocket(path)` effect is recorded in a
ghost trace field `openedConns`, and the module-level `wsRef` as an
`Option String` holding the endpoint path of the current connection.
-/

namespace YTR

/-- `interface ConceptExplanation` in App.tsx. -/
structure ConceptExplanation where
  term : String
  definition : String
  relevance : String
  timestamp : Option String
  timestamp_seconds : Option ℚ
deriving DecidableEq

/-- `interface ArgumentChain` in App.tsx. -/
structure ArgumentChain where
  title : String
  premise : String
  reasoning_steps : List String
  conclusion : String
  implications : Option String
deriving DecidableEq

/-- Phase 1 response: `interface KeyConceptsResponse`. -/
structure KeyConceptsResponse where
  key_concepts : List ConceptExplanation
deriving DecidableEq

/-- Phase 2 response: `interface ThesisArgumentResponse`. -/
structure ThesisArgumentResponse where
  main_thesis : String
  argument_chains : List ArgumentChain
deriving DecidableEq

/-- `interface ConnectionInsight` in App.tsx. -/
structure ConnectionInsight where
  concept_a : String
  concept_b : String
  relationship : String
  significance : String
deriving DecidableEq

/-- Phase 3 response: `interface ConnectionsResponse`. -/
structure ConnectionsResponse where
  connections : List ConnectionInsight
  synthesis : String
deriving DecidableEq

/-- `interface VerifiedClaim` in App.tsx. -/
structure VerifiedClaim where
  claim : String
  claim_type : String
  verdict : String
  reasoning : String
  evidence : Option String
deriving DecidableEq

/-- Phase 4 response: `interface ClaimVerifierResponse`. -/
structure ClaimVerifierResponse where
  verified_claims : List VerifiedClaim
  overall_credibility : String
  summary : String
  cautions : Option (List String)
deriving DecidableEq

/-- `interface QuizQuestion` in App.tsx. -/
structure QuizQuestion where
  question : String
  options : List String
  correct_answer : Nat
  explanation : String
  difficulty : String
  related_concept : Option String
deriving DecidableEq

/-- Phase 5 response: `interface QuizResponse`. -/
structure QuizResponse where
  questions : List QuizQuestion
  passing_score : Nat
  quiz_focus : String
deriving DecidableEq

/-- A dynamically-typed result payload: the `any`-typed `event` / `output`
fields of `WebSocketEvent` can carry any of the five phase responses. -/
inductive Payload where
  | keyConcepts : KeyConceptsResponse → Payload
  | thesisArgs : ThesisArgumentResponse → Payload
  | connections : ConnectionsResponse → Payload
  | claims : ClaimVerifierResponse → Payload
  | quiz : QuizResponse → Payload
deriving DecidableEq

/-- `interface WebSocketEvent` in App.tsx, restricted to the fields the
handlers actually read (`type`, `event`, `id`, `message`, `output`,
`phase`, `timestamp`); the declared-but-never-read fields are omitted. -/
structure WSEvent where
  type : String
  event : Option Payload
  id : Option String
  message : Option String
  output : Option Payload
  phase : Option Nat
  timestamp : String
deriving DecidableEq

/-- A JavaScript number as relevant to this client: NaN, the two
infinities, or an exact (rational) value. -/
inductive JSNum where
  | nan : JSNum
  | posInf : JSNum
  | negInf : JSNum
  | num : ℚ → JSNum
deriving DecidableEq

/-- JavaScript multiplication on `JSNum`. -/
def jsMul : JSNum → JSNum → JSNum
  | .nan, _ => .nan
  | _, .nan => .nan
  | .num a, .num b => .num (a * b)
  | .posInf, .posInf => .posInf
  | .posInf, .negInf => .negInf
  | .negInf, .posInf => .negInf
  | .negInf, .negInf => .posInf
  | .posInf, .num b => if b = 0 then .nan else if 0 < b then .posInf else .negInf
  | .num a, .posInf => if a = 0 then .nan else if 0 < a then .posInf else .negInf
  | .negInf, .num b => if b = 0 then .nan else if 0 < b then .negInf else .posInf
  | .num a, .negInf => if a = 0 then .nan else if 0 < a then .negInf else .posInf

/-- JavaScript division on `JSNum`: in particular `0 / 0` is NaN and
`a / 0` for nonzero finite `a` is a signed infinity. -/
def jsDiv : JSNum → JSNum → JSNum
  | .nan, _ => .nan
  | _, .nan => .nan
  | .num a, .num b =>
      if b = 0 then (if a = 0 then .nan else if 0 < a then .posInf else .negInf)
      else .num (a / b)
  | .posInf, .num b => if 0 ≤ b then .posInf else .negInf
  | .negInf, .num b => if 0 ≤ b then .negInf else .posInf
  | .num _, .posInf => .num 0
  | .num _, .negInf => .num 0
  | _, _ => .nan

/-- JavaScript `Math.round`: round half toward positive infinity, i.e.
`⌊x + 1/2⌋` on finite values; NaN and infinities pass through. -/
def jsRound : JSNum → JSNum
  | .nan => .nan
  | .posInf => .posInf
  | .negInf => .negInf
  | .num a => .num ((⌊a + 1/2⌋ : ℤ) : ℚ)

/-- `Map.get` of a JS `Map<number, number>` modelled as an association
list: the value at the first occurrence of the key, if any. -/
def mapGet : List (Nat × Nat) → Nat → Option Nat
  | [], _ => none
  | (a, b) :: t, k => if a = k then some b else mapGet t k

/-- `Map.set` of a JS `Map<number, number>`: overwrite the value in
place at the first occurrence of the key, otherwise append the new
entry at the end. -/
def mapSet : List (Nat × Nat) → Nat → Nat → List (Nat × Nat)
  | [], k, v => [(k, v)]
  | (a, b) :: t, k, v => if a = k then (k, v) :: t else (a, b) :: mapSet t k v

/-- The character class `[^&\n?#]` of the URL patterns: everything except
the four stop characters. -/
def stopChars : List Char := ['&', '\n', '?', '#']

/-- At a fixed position, try the literal alternatives of a pattern in
order; on a literal match the capture group `([^&\n?#]+)` takes the
(nonempty) run of non-stop characters that follows, and an empty run
makes the regex engine fall through to the next alternative. -/
def tryAltsAt : List (List Char) → List Char → Option (List Char)
  | [], _ => none
  | a :: rest, cs =>
    if cs.take a.length = a then
      let cap := (cs.drop a.length).takeWhile (fun c => !(stopChars.contains c))
      if cap = [] then tryAltsAt rest cs else some cap
    else tryAltsAt rest cs

/-- Leftmost match of `(?:alt1|alt2|...)([^&\n?#]+)`: scan positions left
to right, trying the alternatives in order at each position, and return
the first capture group of the first successful position. -/
def scanMatch (alts : List (List Char)) : List Char → Option (List Char)
  | [] => none
  | c :: cs =>
    match tryAltsAt alts (c :: cs) with
    | some cap => some cap
    | none => scanMatch alts cs

/-- The literal alternatives of the first pattern in `extractVideoId`:
`(?:youtube\.com\/watch\?v=|youtu\.be\/|youtube\.com\/embed\/)([^&\n?#]+)`. -/
def pattern1Alts : List (List Char) :=
  ["youtube.com/watch?v=".data, "youtu.be/".data, "youtube.com/embed/".data]

/-- The single alternative of the second pattern in `extractVideoId`:
`youtube\.com\/shorts\/([^&\n?#]+)`. -/
def pattern2Alts : List (List Char) :=
  ["youtube.com/shorts/".data]

/-- `extractVideoId` of App.tsx: match the URL against the ordered
pattern list and return the first capture group of the first pattern
that matches, or `none` (JS `null`) when neither matches. -/
def extractVideoId (url : String) : Option String :=
  match scanMatch pattern1Alts url.data with
  | some cap => some (String.mk cap)
  | none =>
    match scanMatch pattern2Alts url.data with
    | some cap => some (String.mk cap)
    | none => none

/-- The client-held session state: the React state of `App` plus the
module-level `wsRef` and a ghost trace `openedConns` of the endpoint
paths passed to the `new WebSocket` constructor. -/
structure SessionState where
  videoUrl : String
  videoId : Option String
  notes : Option Payload
  phase2 : Option Payload
  phase3 : Option Payload
  phase4 : Option Payload
  phase5 : Option Payload
  quizAnswers : List (Nat × Nat)
  quizSubmitted : Bool
  quizScore : Option JSNum
  loading : Bool
  loadingPhase : Option Nat
  error : Option String
  progress : List String
  progressPercent : Nat
  progressStep : String
  expandedConcepts : List Nat
  expandedArguments : List Nat
  expandedConnections : List Nat
  expandedClaims : List Nat
  expandedSections : List String
  activePhase : Nat
  wsRef : Option String
  openedConns : List String
deriving DecidableEq

/-- A JS template literal interpolating an optional string: an absent
value prints as the string `undefined`. -/
def jsStr (o : Option String) : String :=
  o.getD "undefined"

/-- The JS expression `o || d` on an optional string: the default is
used when the value is absent or empty (the empty string is falsy). -/
def jsOrStr (o : Option String) (d : String) : String :=
  match o with
  | some str => if str = "" then d else str
  | none => d

/-- The `ws.onmessage` handler installed by `generateInsights` (the
Phase-1 connection), as a pure state transformer: the `switch` on
`data.type`, branch by branch. -/
def onMessagePhase1 (s : SessionState) (d : WSEvent) : SessionState :=
  if d.type = "started" then
    { s with progress := s.progress ++ ["🚀 " ++ jsOrStr d.message "Workflow started"],
             progressPercent := 10, progressStep := "Starting workflow..." }
  else if d.type = "workflow_started" then
    { s with progress := s.progress ++ ["📝 Extracting video captions..."],
             progressPercent := 15, progressStep := "Initializing..." }
  else if d.type = "step_started" then
    let startMsg := if d.id = some "caption_extractor" then
        "📹 Downloading captions from YouTube..."
      else if d.id = some "key_concepts_extractor" then
        "🧠 Extracting key concepts with AI..."
      else "Starting: " ++ jsStr d.id
    let s := { s with progress := s.progress ++ [startMsg] }
    if d.id = some "caption_extractor" then
      { s with progressPercent := 25, progressStep := "Downloading captions..." }
    else if d.id = some "key_concepts_extractor" then
      { s with progressPercent := 50, progressStep := "AI analyzing content..." }
    else s
  else if d.type = "step_completed" then
    let completeMsg := if d.id = some "caption_extractor" then
        "✅ Captions extracted successfully"
      else if d.id = some "key_concepts_extractor" then
        "✅ Key concepts extracted"
      else "Completed: " ++ jsStr d.id
    let s := { s with progress := s.progress ++ [completeMsg] }
    if d.id = some "caption_extractor" then
      { s with progressPercent := 45, progressStep := "Captions ready!" }
    else if d.id = some "key_concepts_extractor" then
      { s with progressPercent := 95, progressStep := "Almost done..." }
    else s
  else if d.type = "workflow_output" ∨ d.type = "completed" then
    match d.event with
    | some p => { s with notes := some p }
    | none => s
  else if d.type = "phase_completed" then
    let s := if d.phase = some 1 then
        let s := match d.output with
          | some p => { s with notes := some p }
          | none => s
        { s with activePhase := 1,
                 progress := s.progress ++ ["🎉 Phase 1 complete - Key concepts ready!"],
                 progressPercent := 100, progressStep := "Complete!",
                 loading := false, loadingPhase := none }
      else s
    if d.phase = some 2 then
      { s with progress := s.progress ++ ["🎉 Phase 2 complete - Thesis & arguments ready!"],
               progressPercent := 100, progressStep := "Complete!",
               loadingPhase := none }
    else s
  else if d.type = "phase_started" then
    if d.phase = some 2 then
      { s with activePhase := 2, loadingPhase := some 2,
               progress := s.progress ++ ["🧠 Phase 2: Extracting thesis & arguments..."] }
    else s
  else if d.type = "phase_output" then
    if d.phase = some 2 then
      match d.output with
      | some p =>
        { s with phase2 := some p, activePhase := 2, loadingPhase := none,
                 expandedSections := ["thesis"],
                 progress := s.progress ++ ["📝 Thesis & argument chains received"] }
      | none => s
    else s
  else if d.type = "error" then
    { s with error := some (jsOrStr d.message "An error occurred"),
             loading := false, loadingPhase := none }
  else if d.type = "step_failed" then
    { s with error := some ("Step failed: " ++ jsStr d.message),
             loading := false, loadingPhase := none }
  else s

/-- The `ws.onmessage` handler installed by `startPhase2`, as a pure
state transformer. -/
def onMessagePhase2 (s : SessionState) (d : WSEvent) : SessionState :=
  if d.type = "phase_started" then
    { s with progress := s.progress ++ ["🧠 Extracting thesis & arguments..."],
             progressPercent := 25, progressStep := "Analyzing..." }
  else if d.type = "step_started" then
    let startMsg := if d.id = some "thesis_argument_extractor" then
        "🧠 Analyzing argument chains..."
      else "Starting: " ++ jsStr d.id
    { s with progress := s.progress ++ [startMsg],
             progressPercent := 50, progressStep := "AI analyzing arguments..." }
  else if d.type = "workflow_output" then
    match d.event with
    | some p =>
      { s with phase2 := some p, expandedSections := ["thesis"],
               progressPercent := 90, progressStep := "Processing results...",
               progress := s.progress ++ ["📝 Thesis & argument chains received"] }
    | none => s
  else if d.type = "phase_completed" then
    { s with progress := s.progress ++ ["🎉 Phase 2 complete - Thesis & arguments ready!"],
             progressPercent := 100, progressStep := "Complete!",
             loadingPhase := none }
  else if d.type = "error" then
    { s with error := some (jsOrStr d.message "An error occurred in Phase 2"),
             loadingPhase := none }
  else if d.type = "step_failed" then
    { s with error := some ("Phase 2 step failed: " ++ jsStr d.message),
             loadingPhase := none }
  else s

/-- Process a whole inbound message sequence with the Phase-2 handler,
in arrival order. -/
def processPhase2 (s : SessionState) (ds : List WSEvent) : SessionState :=
  ds.foldl onMessagePhase2 s

/-- Process a whole inbound message sequence with the Phase-1 handler,
in arrival order. -/
def processPhase1 (s : SessionState) (ds : List WSEvent) : SessionState :=
  ds.foldl onMessagePhase1 s

/-- `startPhase2` of App.tsx up to the point where the connection is
opened and its callbacks installed: the synchronous guard on `videoId`,
the synchronous state updates, and the `new WebSocket` effect (recorded
in `wsRef` and the ghost trace). -/
def startPhase2 (s : SessionState) : SessionState :=
  match s.videoId with
  | none => { s with error := some "No video ID available. Please run Phase 1 first." }
  | some _ =>
    { s with loadingPhase := some 2, activePhase := 2,
             progress := s.progress ++ ["➡️ Starting Phase 2..."],
             progressPercent := 0, progressStep := "Starting Phase 2...",
             wsRef := some "/ws/phase2",
             openedConns := s.openedConns ++ ["/ws/phase2"] }

/-- `startPhase3` of App.tsx: the synchronous guard on `notes`, the
synchronous state updates, and the `new WebSocket` effect. -/
def startPhase3 (s : SessionState) : SessionState :=
  match s.notes with
  | none => { s with error := some "No key concepts available. Please run Phase 1 first." }
  | some _ =>
    { s with loadingPhase := some 3, activePhase := 3,
             progress := s.progress ++ ["➡️ Starting Phase 3..."],
             progressPercent := 0, progressStep := "Starting Phase 3...",
             wsRef := some "/ws/phase3",
             openedConns := s.openedConns ++ ["/ws/phase3"] }

/-- `startPhase4` of App.tsx: the synchronous guard on `phase2`, the
synchronous state updates, and the `new WebSocket` effect. -/
def startPhase4 (s : SessionState) : SessionState :=
  match s.phase2 with
  | none => { s with error := some "No thesis or arguments available. Please run Phase 2 first." }
  | some _ =>
    { s with loadingPhase := some 4, activePhase := 4,
             progress := s.progress ++ ["➡️ Starting Phase 4..."],
             progressPercent := 0, progressStep := "Starting Phase 4...",
             wsRef := some "/ws/phase4",
             openedConns := s.openedConns ++ ["/ws/phase4"] }

/-- `startPhase5` of App.tsx: the synchronous guard on `notes`, the
quiz-state reset, the synchronous state updates, and the
`new WebSocket` effect. -/
def startPhase5 (s : SessionState) : SessionState :=
  match s.notes with
  | none => { s with error := some "No content available for quiz generation." }
  | some _ =>
    { s with loadingPhase := some 5, activePhase := 5,
             quizAnswers := [], quizSubmitted := false, quizScore := none,
             progress := s.progress ++ ["➡️ Starting Phase 5..."],
             progressPercent := 0, progressStep := "Starting Phase 5...",
             wsRef := some "/ws/phase5",
             openedConns := s.openedConns ++ ["/ws/phase5"] }

/-- `cancelWebSocket` of App.tsx: close and null the connection if any,
clear the loading flags, and append the cancelled progress entry. -/
def cancelWebSocket (s : SessionState) : SessionState :=
  { s with wsRef := none, loading := false, loadingPhase := none,
           progress := s.progress ++ ["❌ Cancelled by user"] }

/-- `handleQuizAnswer` of App.tsx: a no-op once the quiz is submitted,
otherwise record/overwrite the selected option for the question index. -/
def handleQuizAnswer (s : SessionState) (questionIndex answerIndex : Nat) : SessionState :=
  if s.quizSubmitted then s
  else { s with quizAnswers := mapSet s.quizAnswers questionIndex answerIndex }

/-- The `correct` tally of `submitQuiz`: the number of question indices
whose recorded answer equals that question's `correct_answer`. -/
def correctCount (qs : List QuizQuestion) (ans : List (Nat × Nat)) : Nat :=
  qs.enum.countP (fun p => mapGet ans p.1 == some p.2.correct_answer)

/-- `submitQuiz` of App.tsx: early-return when no quiz is stored;
otherwise compute `Math.round((correct / questions.length) * 100)` in JS
arithmetic, store it, and mark the quiz submitted.  A stored payload
that is not a quiz would make the property accesses throw in JS, which
the model reports as `none`. -/
def submitQuiz (s : SessionState) : Option SessionState :=
  match s.phase5 with
  | none => some s
  | some (.quiz qz) =>
    let correct := correctCount qz.questions s.quizAnswers
    let score := jsRound (jsMul (jsDiv (.num correct) (.num qz.questions.length)) (.num 100))
    some { s with quizScore := some score, quizSubmitted := true }
  | some _ => none

/-- `retakeQuiz` of App.tsx: clear the recorded answers, the submitted
flag and the score. -/
def retakeQuiz (s : SessionState) : SessionState :=
  { s with quizAnswers := [], quizSubmitted := false, quizScore := none }

/-- The initial React state of `App`: everything empty except the
initially expanded `concepts` section and `activePhase = 1`. -/
def emptySession : SessionState where
  videoUrl := ""
  videoId := none
  notes := none
  phase2 := none
  phase3 := none
  phase4 := none
  phase5 := none
  quizAnswers := []
  quizSubmitted := false
  quizScore := none
  loading := false
  loadingPhase := none
  error := none
  progress := []
  progressPercent := 0
  progressStep := ""
  expandedConcepts := []
  expandedArguments := []
  expandedConnections := []
  expandedClaims := []
  expandedSections := ["concepts"]
  activePhase := 1
  wsRef := none
  openedConns := []

/-- An inbound message with the given `type` and every optional field
absent. -/
def mkEvent (t : String) : WSEvent where
  type := t
  event := none
  id := none
  message := none
  output := none
  phase := none
  timestamp := ""

/-- A concrete Phase-2 result payload used in concrete runs. -/
def pTA : Payload :=
  .thesisArgs { main_thesis := "Main thesis", argument_chains := [] }

/-- A concrete Phase-1 result payload used in concrete runs. -/
def pKC : Payload :=
  .keyConcepts { key_concepts := [] }

/-- The state right after `startPhase2` succeeded: Phase 2 loading. -/
def phase2Start : SessionState :=
  { emptySession with loadingPhase := some 2, activePhase := 2 }

/-- A quiz question with the given correct-answer index, used in
concrete runs. -/
def quizQ (ca : Nat) : QuizQuestion where
  question := "q"
  options := ["a", "b"]
  correct_answer := ca
  explanation := "e"
  difficulty := "easy"
  related_concept := none

/-- A concrete four-question quiz. -/
def quiz4 : QuizResponse where
  questions := [quizQ 0, quizQ 0, quizQ 0, quizQ 0]
  passing_score := 70
  quiz_focus := "focus"

/-- A session holding `quiz4` with two of the four answers correct. -/
def sQuiz4 : SessionState :=
  { emptySession with phase5 := some (.quiz quiz4),
                      quizAnswers := [(0, 0), (1, 0), (2, 1), (3, 1)] }

/-- A concrete one-question quiz. -/
def quiz1 : QuizResponse where
  questions := [quizQ 0]
  passing_score := 70
  quiz_focus := "focus"

/-- A session holding `quiz1` with no answers recorded. -/
def sQuiz1 : SessionState :=
  { emptySession with phase5 := some (.quiz quiz1) }

/-- `Map.set` followed by `Map.get` at the same key yields the value
just stored. -/
theorem mapGet_mapSet_self (m : List (Nat × Nat)) (k v : Nat) :
    mapGet (mapSet m k v) k = some v := by
  induction m with
  | nil => simp [mapSet, mapGet]
  | cons a t ih =>
    obtain ⟨a1, a2⟩ := a
    by_cases hk : a1 = k
    · simp [mapSet, hk, mapGet]
    · simp [mapSet, hk, mapGet, ih]

/-- `Map.set` at one key does not change `Map.get` at any other key. -/
theorem mapGet_mapSet_ne (m : List (Nat × Nat)) (k v j : Nat) (hj : j ≠ k) :
    mapGet (mapSet m k v) j = mapGet m j := by
  have hkj : ¬(k = j) := fun h => hj h.symm
  induction m with
  | nil => simp [mapSet, mapGet, hkj]
  | cons a t ih =>
    obtain ⟨a1, a2⟩ := a
    by_cases hk : a1 = k
    · subst hk
      simp [mapSet, mapGet, hkj]
    · simp [mapSet, hk, mapGet, ih]

/-- Branches of the Phase-2 handler either leave `loadingPhase`
unchanged or clear it; no branch sets it. -/
theorem onMessagePhase2_loadingPhase (s : SessionState) (d : WSEvent) :
    (onMessagePhase2 s d).loadingPhase = s.loadingPhase ∨
    (onMessagePhase2 s d).loadingPhase = none := by
  rcases hd : d.event with _ | p <;>
    (unfold onMessagePhase2; split_ifs <;> simp [hd])

/-- A `phase_completed`, `error` or `step_failed` message clears
`loadingPhase` in the Phase-2 handler. -/
theorem onMessagePhase2_terminal (s : SessionState) (d : WSEvent)
    (h : d.type = "phase_completed" ∨ d.type = "error" ∨ d.type = "step_failed") :
    (onMessagePhase2 s d).loadingPhase = none := by
  rcases h with h | h | h <;> simp [onMessagePhase2, h]

/-- Once `loadingPhase` is clear, the Phase-2 handler keeps it clear
over any further message sequence. -/
theorem processPhase2_none (ds : List WSEvent) :
    ∀ s : SessionState, s.loadingPhase = none →
      (processPhase2 s ds).loadingPhase = none := by
  induction ds with
  | nil => intro s h; exact h
  | cons d t ih =>
    intro s h
    apply ih
    rcases onMessagePhase2_loadingPhase s d with h1 | h1
    · rw [h1, h]
    · exact h1

/-- A message sequence for the Phase-2 counterexample: a result-bearing
`workflow_output`. -/
def mWO : WSEvent := { mkEvent "workflow_output" with event := some pTA }

/-- A server-reported error message for the Phase-2 counterexample. -/
def mErr : WSEvent := { mkEvent "error" with message := some "boom" }

/-- C2 counterexample: in the Phase-2 handler, the sequence
`[workflow_output with payload, error]` leaves both the phase result
and an error stored, and a result-bearing `workflow_output` alone
stores the result while leaving `loadingPhase` set — refuting both the
at-most-one-of exclusivity and the claim that every result-bearing
terminal message clears `loadingPhase`. -/
theorem terminal_exclusivity_cex :
    ((processPhase2 phase2Start [mWO, mErr]).phase2 = some pTA ∧
     (processPhase2 phase2Start [mWO, mErr]).error = some "boom") ∧
    ((processPhase2 phase2Start [mWO]).phase2 = some pTA ∧
     (processPhase2 phase2Start [mWO]).loadingPhase = some 2) := by
  decide

/-- C2 (amended): in the Phase-2 handler, once a `phase_completed`,
`error` or `step_failed` message occurs in the processed sequence,
`loadingPhase` is cleared at the end of the sequence. -/
theorem terminal_clears_loading (s : SessionState) (ds : List WSEvent)
    (h : ∃ d ∈ ds, d.type = "phase_completed" ∨ d.type = "error" ∨
      d.type = "step_failed") :
    (processPhase2 s ds).loadingPhase = none := by
  revert h
  induction ds generalizing s with
  | nil => intro h; simp at h
  | cons d t ih =>
    intro h
    obtain ⟨d0, hd0, hterm⟩ := h
    rcases List.mem_cons.mp hd0 with rfl | hmem
    · exact processPhase2_none t (onMessagePhase2 s d0)
        (onMessagePhase2_terminal s d0 hterm)
    · exact ih (onMessagePhase2 s d) ⟨d0, hmem, hterm⟩

/-- Witness for `terminal_clears_loading`: processing a single
`phase_completed` message clears `loadingPhase`. -/
theorem terminal_clears_loading_witness :
    (processPhase2 phase2Start [mkEvent "phase_completed"]).loadingPhase = none :=
  terminal_clears_loading phase2Start [mkEvent "phase_completed"]
    ⟨mkEvent "phase_completed", by simp, Or.inl rfl⟩

/-- C3: the video-ID extraction is a total function, and on the five
table inputs it returns the first capture group of the first matching
pattern — `abc123` for the four YouTube URL forms — and no match for a
non-YouTube URL. -/
theorem extractVideoId_table :
    extractVideoId "https://www.youtube.com/watch?v=abc123" = some "abc123" ∧
    extractVideoId "https://youtu.be/abc123" = some "abc123" ∧
    extractVideoId "https://www.youtube.com/embed/abc123" = some "abc123" ∧
    extractVideoId "https://www.youtube.com/shorts/abc123" = some "abc123" ∧
    extractVideoId "https://example.com/not-a-video" = none := by
  decide

/-- Evaluation of the JS score computation at a nonzero question count:
`Math.round((c / n) * 100)` equals `⌊100 c / n + 1/2⌋`. -/
theorem jsScore_eval (c n : Nat) (hn : n ≠ 0) :
    jsRound (jsMul (jsDiv (.num c) (.num n)) (.num 100)) =
      .num ((⌊100 * (c : ℚ) / (n : ℚ) + 1/2⌋ : ℤ) : ℚ) := by
  have hn' : ((n : ℚ)) ≠ 0 := Nat.cast_ne_zero.mpr hn
  have h1 : jsDiv (.num (c : ℚ)) (.num (n : ℚ)) = .num ((c : ℚ) / n) := by
    simp [jsDiv, hn']
  rw [h1]
  have h3 : (c : ℚ) / n * 100 = 100 * (c : ℚ) / n := by ring
  simp [jsMul, jsRound, h3]

/-- The correct-answer tally never exceeds the question count. -/
theorem correctCount_le (qs : List QuizQuestion) (ans : List (Nat × Nat)) :
    correctCount qs ans ≤ qs.length := by
  unfold correctCount
  calc qs.enum.countP (fun p => mapGet ans p.1 == some p.2.correct_answer)
      ≤ qs.enum.length := List.countP_le_length _
    _ = qs.length := List.enum_length

/-- C4: with a quiz stored and a nonzero question count, `submitQuiz`
marks the quiz submitted and computes
`score = round(100 * correctCount / totalQuestions)` where
`correctCount` counts question indices whose recorded answer equals the
question's `correct_answer`; all answers correct yields 100, zero
correct yields 0, and 2 correct out of 4 yields 50. -/
theorem submitQuiz_score_spec (s : SessionState) (qz : QuizResponse)
    (hq : s.phase5 = some (.quiz qz)) (hn : qz.questions.length ≠ 0) :
    ∃ s', submitQuiz s = some s' ∧ s'.quizSubmitted = true ∧
      s'.quizScore = some (.num ((⌊100 * (correctCount qz.questions s.quizAnswers : ℚ) /
        (qz.questions.length : ℚ) + 1/2⌋ : ℤ) : ℚ)) ∧
      (correctCount qz.questions s.quizAnswers = qz.questions.length →
        s'.quizScore = some (.num 100)) ∧
      (correctCount qz.questions s.quizAnswers = 0 →
        s'.quizScore = some (.num 0)) ∧
      (correctCount qz.questions s.quizAnswers = 2 → qz.questions.length = 4 →
        s'.quizScore = some (.num 50)) := by
  have hn' : ((qz.questions.length : ℚ)) ≠ 0 := Nat.cast_ne_zero.mpr hn
  have hsub : submitQuiz s = some { s with
      quizScore := some (jsRound (jsMul (jsDiv
        (.num (correctCount qz.questions s.quizAnswers))
        (.num (qz.questions.length))) (.num 100))),
      quizSubmitted := true } := by
    simp [submitQuiz, hq]
  rw [jsScore_eval _ _ hn] at hsub
  refine ⟨_, hsub, rfl, rfl, ?_, ?_, ?_⟩
  · intro h
    show some _ = some _
    rw [h, mul_div_assoc, div_self hn', mul_one]
    norm_num
  · intro h
    show some _ = some _
    rw [h]
    norm_num
  · intro h2 h4
    show some _ = some _
    rw [h2, h4]
    norm_num

/-- Witness for `submitQuiz_score_spec`: a concrete four-question quiz
with two recorded answers correct. -/
theorem submitQuiz_score_spec_witness :
    ∃ s', submitQuiz sQuiz4 = some s' ∧ s'.quizSubmitted = true ∧
      s'.quizScore = some (.num ((⌊100 * (correctCount quiz4.questions sQuiz4.quizAnswers : ℚ) /
        (quiz4.questions.length : ℚ) + 1/2⌋ : ℤ) : ℚ)) ∧
      (correctCount quiz4.questions sQuiz4.quizAnswers = quiz4.questions.length →
        s'.quizScore = some (.num 100)) ∧
      (correctCount quiz4.questions sQuiz4.quizAnswers = 0 →
        s'.quizScore = some (.num 0)) ∧
      (correctCount quiz4.questions sQuiz4.quizAnswers = 2 → quiz4.questions.length = 4 →
        s'.quizScore = some (.num 50)) :=
  submitQuiz_score_spec sQuiz4 quiz4 rfl (by decide)

/-- C10: with a stored quiz, `submitQuiz` produces an integer score
between 0 and 100 when the question list is nonempty, and NaN (not a
valid percentage) when the question list is empty, since the division
by the question count is unguarded. -/
theorem submitQuiz_score_range (s : SessionState) (qz : QuizResponse)
    (hq : s.phase5 = some (.quiz qz)) :
    (qz.questions.length ≠ 0 →
      ∃ (s' : SessionState) (z : ℤ), submitQuiz s = some s' ∧
        s'.quizScore = some (.num (z : ℚ)) ∧ 0 ≤ z ∧ z ≤ 100) ∧
    (qz.questions.length = 0 →
      ∃ s', submitQuiz s = some s' ∧ s'.quizScore = some .nan) := by
  constructor
  · intro hn
    have hn' : ((qz.questions.length : ℚ)) ≠ 0 := Nat.cast_ne_zero.mpr hn
    have hnpos : (0 : ℚ) < (qz.questions.length : ℚ) := by
      exact_mod_cast Nat.pos_of_ne_zero hn
    have hsub : submitQuiz s = some { s with
        quizScore := some (jsRound (jsMul (jsDiv
          (.num (correctCount qz.questions s.quizAnswers))
          (.num (qz.questions.length))) (.num 100))),
        quizSubmitted := true } := by
      simp [submitQuiz, hq]
    rw [jsScore_eval _ _ hn] at hsub
    refine ⟨_, _, hsub, rfl, ?_, ?_⟩
    · apply Int.floor_nonneg.mpr
      positivity
    · have hcle : ((correctCount qz.questions s.quizAnswers : ℚ)) ≤
          ((qz.questions.length : ℚ)) := by
        exact_mod_cast correctCount_le qz.questions s.quizAnswers
      have hb : 100 * (correctCount qz.questions s.quizAnswers : ℚ) /
          (qz.questions.length : ℚ) ≤ 100 := by
        rw [div_le_iff₀ hnpos]
        nlinarith
      calc ⌊100 * (correctCount qz.questions s.quizAnswers : ℚ) /
            (qz.questions.length : ℚ) + 1/2⌋
          ≤ ⌊(201/2 : ℚ)⌋ := Int.floor_le_floor (by linarith)
        _ = 100 := by norm_num
  · intro h0
    have hq0 : qz.questions = [] := List.length_eq_zero.mp h0
    have hc0 : correctCount qz.questions s.quizAnswers = 0 := by
      simp [correctCount, hq0]
    have hsub : submitQuiz s = some { s with
        quizScore := some (jsRound (jsMul (jsDiv
          (.num (correctCount qz.questions s.quizAnswers))
          (.num (qz.questions.length))) (.num 100))),
        quizSubmitted := true } := by
      simp [submitQuiz, hq]
    rw [hc0, h0] at hsub
    refine ⟨_, hsub, ?_⟩
    show some _ = some _
    norm_num [jsDiv, jsMul, jsRound]

/-- Witness for `submitQuiz_score_range`: a concrete one-question quiz
with no recorded answers. -/
theorem submitQuiz_score_range_witness :
    (quiz1.questions.length ≠ 0 →
      ∃ (s' : SessionState) (z : ℤ), submitQuiz sQuiz1 = some s' ∧
        s'.quizScore = some (.num (z : ℚ)) ∧ 0 ≤ z ∧ z ≤ 100) ∧
    (quiz1.questions.length = 0 →
      ∃ s', submitQuiz sQuiz1 = some s' ∧ s'.quizScore = some .nan) :=
  submitQuiz_score_range sQuiz1 quiz1 rfl

/-- C1 counterexample: in a state where the video ID is set but the
Phase-1 key-concepts result is absent, `startPhase2` does not fail: no
error message is set and a connection is opened. -/
theorem phase_gating_cex :
    ({ emptySession with videoId := some "abc123" } : SessionState).notes = none ∧
    (startPhase2 { emptySession with videoId := some "abc123" }).error = none ∧
    (startPhase2 { emptySession with videoId := some "abc123" }).openedConns =
      ["/ws/phase2"] := by
  decide

/-- C1 (amended): `startPhase3` and `startPhase5` require the Phase-1
result and `startPhase4` the Phase-2 result — absent these, the call
fails synchronously with only the error message changed (in particular
no connection is opened and no other state changes) — while
`startPhase2` requires only the extracted video ID, failing the same
way exactly when `videoId` is absent. -/
theorem phase_gating_amended (s : SessionState) :
    (s.videoId = none → startPhase2 s =
      { s with error := some "No video ID available. Please run Phase 1 first." }) ∧
    (s.notes = none → startPhase3 s =
      { s with error := some "No key concepts available. Please run Phase 1 first." }) ∧
    (s.phase2 = none → startPhase4 s =
      { s with error := some "No thesis or arguments available. Please run Phase 2 first." }) ∧
    (s.notes = none → startPhase5 s =
      { s with error := some "No content available for quiz generation." }) := by
  refine ⟨fun h => ?_, fun h => ?_, fun h => ?_, fun h => ?_⟩
  · simp [startPhase2, h]
  · simp [startPhase3, h]
  · simp [startPhase4, h]
  · simp [startPhase5, h]

/-- Witness for `phase_gating_amended`: the empty session has no video
ID and no phase results, so all four guards fire. -/
theorem phase_gating_amended_witness :
    (emptySession.videoId = none → startPhase2 emptySession =
      { emptySession with error := some "No video ID available. Please run Phase 1 first." }) ∧
    (emptySession.notes = none → startPhase3 emptySession =
      { emptySession with error := some "No key concepts available. Please run Phase 1 first." }) ∧
    (emptySession.phase2 = none → startPhase4 emptySession =
      { emptySession with error := some "No thesis or arguments available. Please run Phase 2 first." }) ∧
    (emptySession.notes = none → startPhase5 emptySession =
      { emptySession with error := some "No content available for quiz generation." }) :=
  phase_gating_amended emptySession

/-- C5: in both the Phase-1 and the Phase-2 message handlers, an
`error` or `step_failed` message stores an error message and clears the
loading state while leaving every phase result slot unchanged. -/
theorem error_terminal_no_partial (s : SessionState) (d : WSEvent)
    (h : d.type = "error" ∨ d.type = "step_failed") :
    ((onMessagePhase1 s d).error.isSome ∧
     (onMessagePhase1 s d).loading = false ∧
     (onMessagePhase1 s d).loadingPhase = none ∧
     (onMessagePhase1 s d).notes = s.notes ∧
     (onMessagePhase1 s d).phase2 = s.phase2 ∧
     (onMessagePhase1 s d).phase3 = s.phase3 ∧
     (onMessagePhase1 s d).phase4 = s.phase4 ∧
     (onMessagePhase1 s d).phase5 = s.phase5) ∧
    ((onMessagePhase2 s d).error.isSome ∧
     (onMessagePhase2 s d).loadingPhase = none ∧
     (onMessagePhase2 s d).notes = s.notes ∧
     (onMessagePhase2 s d).phase2 = s.phase2 ∧
     (onMessagePhase2 s d).phase3 = s.phase3 ∧
     (onMessagePhase2 s d).phase4 = s.phase4 ∧
     (onMessagePhase2 s d).phase5 = s.phase5) := by
  rcases h with h | h <;> simp [onMessagePhase1, onMessagePhase2, h]

/-- Witness for `error_terminal_no_partial`: a concrete `error` message
processed from the empty session. -/
theorem error_terminal_no_partial_witness :
    ((onMessagePhase1 emptySession (mkEvent "error")).error.isSome ∧
     (onMessagePhase1 emptySession (mkEvent "error")).loading = false ∧
     (onMessagePhase1 emptySession (mkEvent "error")).loadingPhase = none ∧
     (onMessagePhase1 emptySession (mkEvent "error")).notes = emptySession.notes ∧
     (onMessagePhase1 emptySession (mkEvent "error")).phase2 = emptySession.phase2 ∧
     (onMessagePhase1 emptySession (mkEvent "error")).phase3 = emptySession.phase3 ∧
     (onMessagePhase1 emptySession (mkEvent "error")).phase4 = emptySession.phase4 ∧
     (onMessagePhase1 emptySession (mkEvent "error")).phase5 = emptySession.phase5) ∧
    ((onMessagePhase2 emptySession (mkEvent "error")).error.isSome ∧
     (onMessagePhase2 emptySession (mkEvent "error")).loadingPhase = none ∧
     (onMessagePhase2 emptySession (mkEvent "error")).notes = emptySession.notes ∧
     (onMessagePhase2 emptySession (mkEvent "error")).phase2 = emptySession.phase2 ∧
     (onMessagePhase2 emptySession (mkEvent "error")).phase3 = emptySession.phase3 ∧
     (onMessagePhase2 emptySession (mkEvent "error")).phase4 = emptySession.phase4 ∧
     (onMessagePhase2 emptySession (mkEvent "error")).phase5 = emptySession.phase5) :=
  error_terminal_no_partial emptySession (mkEvent "error") (Or.inl rfl)

/-- C6 counterexample: a `workflow_output` message whose payload
arrives under the `output` key (with `event` absent) is nominally
terminal and carries a result, yet the Phase-1 handler stores nothing. -/
theorem payload_key_cex :
    ({ mkEvent "workflow_output" with output := some pKC } : WSEvent).output =
      some pKC ∧
    (onMessagePhase1 emptySession
      { mkEvent "workflow_output" with output := some pKC }).notes = none := by
  decide

/-- C6 (amended): each handler reads the result payload only from its
message type's designated key — `workflow_output`/`completed` from
`event`, `phase_completed` (phase 1) and `phase_output` (phase 2) from
`output` — and a nominally-terminal message with no payload under that
designated key stores no result. -/
theorem payload_keys_amended (s : SessionState) (d : WSEvent) :
    ((d.type = "workflow_output" ∨ d.type = "completed") → ∀ p, d.event = some p →
      (onMessagePhase1 s d).notes = some p) ∧
    ((d.type = "workflow_output" ∨ d.type = "completed") → d.event = none →
      (onMessagePhase1 s d).notes = s.notes) ∧
    (d.type = "phase_completed" → d.phase = some 1 → ∀ p, d.output = some p →
      (onMessagePhase1 s d).notes = some p) ∧
    (d.type = "phase_completed" → d.phase = some 1 → d.output = none →
      (onMessagePhase1 s d).notes = s.notes) ∧
    (d.type = "workflow_output" → ∀ p, d.event = some p →
      (onMessagePhase2 s d).phase2 = some p) ∧
    (d.type = "workflow_output" → d.event = none →
      (onMessagePhase2 s d).phase2 = s.phase2) ∧
    (d.type = "phase_output" → d.phase = some 2 → ∀ p, d.output = some p →
      (onMessagePhase1 s d).phase2 = some p) ∧
    (d.type = "phase_output" → d.phase = some 2 → d.output = none →
      (onMessagePhase1 s d).phase2 = s.phase2) ∧
    (d.type = "phase_output" → d.phase = some 2 → ∀ p, d.event = some p → d.output = none →
      (onMessagePhase1 s d).phase2 = s.phase2) := by
  refine ⟨?_, ?_, ?_, ?_, ?_, ?_, ?_, ?_, ?_⟩
  · rintro (h | h) p hp <;> simp [onMessagePhase1, h, hp]
  · rintro (h | h) hp <;> simp [onMessagePhase1, h, hp]
  · intro h h1 p hp
    simp [onMessagePhase1, h, h1, hp]
  · intro h h1 hp
    simp [onMessagePhase1, h, h1, hp]
  · intro h p hp
    simp [onMessagePhase2, h, hp]
  · intro h hp
    simp [onMessagePhase2, h, hp]
  · intro h h2 p hp
    simp [onMessagePhase1, h, h2, hp]
  · intro h h2 hp
    simp [onMessagePhase1, h, h2, hp]
  · intro h h2 p _ hp
    simp [onMessagePhase1, h, h2, hp]

/-- Witness for `payload_keys_amended`: a `workflow_output` message
with the payload under the `event` key is stored by the Phase-1
handler. -/
theorem payload_keys_amended_witness :
    (onMessagePhase1 emptySession
      { mkEvent "workflow_output" with event := some pKC }).notes = some pKC :=
  (payload_keys_amended emptySession
      { mkEvent "workflow_output" with event := some pKC }).1
    (Or.inl rfl) pKC rfl

/-- C7: `handleQuizAnswer` is a no-op when the quiz is already
submitted; otherwise it records or overwrites the answer at the given
question index, changes no other recorded answer, and leaves the
submitted flag and the score unchanged. -/
theorem answerQuestion_spec (s : SessionState) (i o : Nat) :
    (s.quizSubmitted = true → handleQuizAnswer s i o = s) ∧
    (s.quizSubmitted = false →
      mapGet (handleQuizAnswer s i o).quizAnswers i = some o ∧
      (∀ j, j ≠ i → mapGet (handleQuizAnswer s i o).quizAnswers j =
        mapGet s.quizAnswers j) ∧
      (handleQuizAnswer s i o).quizSubmitted = s.quizSubmitted ∧
      (handleQuizAnswer s i o).quizScore = s.quizScore) := by
  constructor
  · intro h
    simp [handleQuizAnswer, h]
  · intro h
    have hna : (handleQuizAnswer s i o).quizAnswers = mapSet s.quizAnswers i o := by
      simp [handleQuizAnswer, h]
    refine ⟨?_, ?_, ?_, ?_⟩
    · rw [hna]
      exact mapGet_mapSet_self _ _ _
    · intro j hj
      rw [hna]
      exact mapGet_mapSet_ne _ _ _ _ hj
    · simp [handleQuizAnswer, h]
    · simp [handleQuizAnswer, h]

/-- Witness for `answerQuestion_spec`: answering question 0 with option
1 in the unsubmitted empty session, and answering in a submitted
session. -/
theorem answerQuestion_spec_witness :
    (mapGet (handleQuizAnswer emptySession 0 1).quizAnswers 0 = some 1 ∧
      (∀ j, j ≠ 0 → mapGet (handleQuizAnswer emptySession 0 1).quizAnswers j =
        mapGet emptySession.quizAnswers j) ∧
      (handleQuizAnswer emptySession 0 1).quizSubmitted = emptySession.quizSubmitted ∧
      (handleQuizAnswer emptySession 0 1).quizScore = emptySession.quizScore) ∧
    handleQuizAnswer { emptySession with quizSubmitted := true } 0 1 =
      { emptySession with quizSubmitted := true } :=
  ⟨(answerQuestion_spec emptySession 0 1).2 rfl,
   (answerQuestion_spec { emptySession with quizSubmitted := true } 0 1).1 rfl⟩

/-- The message types recognized by the Phase-1 handler's `switch`. -/
def recognizedPhase1 : List String :=
  ["started", "workflow_started", "step_started", "step_completed",
   "workflow_output", "completed", "phase_completed", "phase_started",
   "phase_output", "error", "step_failed"]

/-- The message types recognized by the Phase-2 handler's `switch`. -/
def recognizedPhase2 : List String :=
  ["phase_started", "step_started", "workflow_output", "phase_completed",
   "error", "step_failed"]

/-- C8: a message whose type is not among the recognized values leaves
the whole session state unchanged in both the Phase-1 and the Phase-2
handlers (the default branch only logs). -/
theorem unknown_type_ignored (s : SessionState) (d : WSEvent) :
    (d.type ∉ recognizedPhase1 → onMessagePhase1 s d = s) ∧
    (d.type ∉ recognizedPhase2 → onMessagePhase2 s d = s) := by
  constructor
  · intro h
    simp only [recognizedPhase1, List.mem_cons, List.not_mem_nil, or_false,
      not_or] at h
    obtain ⟨h1, h2, h3, h4, h5, h6, h7, h8, h9, h10, h11⟩ := h
    simp [onMessagePhase1, h1, h2, h3, h4, h5, h6, h7, h8, h9, h10, h11]
  · intro h
    simp only [recognizedPhase2, List.mem_cons, List.not_mem_nil, or_false,
      not_or] at h
    obtain ⟨g1, g2, g3, g4, g5, g6⟩ := h
    simp [onMessagePhase2, g1, g2, g3, g4, g5, g6]

/-- Witness for `unknown_type_ignored`: the message type
`something_unrecognized` leaves the empty session unchanged in both
handlers. -/
theorem unknown_type_ignored_witness :
    onMessagePhase1 emptySession (mkEvent "something_unrecognized") = emptySession ∧
    onMessagePhase2 emptySession (mkEvent "something_unrecognized") = emptySession :=
  ⟨(unknown_type_ignored emptySession (mkEvent "something_unrecognized")).1 (by decide),
   (unknown_type_ignored emptySession (mkEvent "something_unrecognized")).2 (by decide)⟩

/-- C9 counterexample: `cancelWebSocket` is not idempotent — a second
call applied to the result of the first changes the state again,
because it appends another cancelled progress entry. -/
theorem cancel_cex :
    cancelWebSocket (cancelWebSocket emptySession) ≠ cancelWebSocket emptySession := by
  decide

/-- C9 (amended): `cancelWebSocket` closes the connection if any,
clears the loading state, and appends a cancelled progress entry; a
second call leaves everything unchanged except appending one more
cancelled progress entry, so it is idempotent only up to the progress
log. -/
theorem cancel_amended (s : SessionState) :
    (cancelWebSocket s).wsRef = none ∧
    (cancelWebSocket s).loading = false ∧
    (cancelWebSocket s).loadingPhase = none ∧
    (cancelWebSocket s).progress = s.progress ++ ["❌ Cancelled by user"] ∧
    cancelWebSocket (cancelWebSocket s) =
      { cancelWebSocket s with
          progress := (cancelWebSocket s).progress ++ ["❌ Cancelled by user"] } := by
  refine ⟨rfl, rfl, rfl, rfl, rfl⟩

end YTR
